import Mathlib

/-
  Verification of the adbconnection debug-bridge broker
  (adbconnection/adbconnection.cc).

  The development shallowly embeds the connection state machine of the broker,
  the DDM packet framer, the agent-control-message dispatch, the
  control-socket back-off loop and the agent-argument construction as
  executable Lean definitions, and proves the specified properties about
  them.  Machine integers are modelled as Nat with explicit reduction
  modulo 2^32 where 32-bit overflow matters.
-/

/-- The broker state: the fields of AdbConnectionState that the poll loop
reads and writes.  File descriptors are modelled as present/absent
(control socket) or as an optional numeric fd (the debugger connection,
adb_connection_socket_).  running models whether the worker thread is
still in RunPollLoop (it returns on agent-load failure).  nextDdmIdCtr is
the uint32 counter next_ddm_id_, initialised to 1 in the constructor. -/
structure BrokerState where
  running : Bool
  controlSock : Bool
  conn : Option Nat
  agentLoaded : Bool
  agentListening : Bool
  agentHasSocket : Bool
  sentAgentFds : Bool
  nextDdmIdCtr : Nat
deriving DecidableEq, Repr

/-- Observable side effects of a poll-loop branch, used to state what a
handler does besides updating flags. -/
inductive BrokerAction where
  | sentFds
  | sendFdsFailed
  | closedConnUnderLock
  | closedNewFd (fd : Nat)
  | adoptedFd (fd : Nat)
  | resetControl
  | loadedAgent
  | loadFailed
deriving DecidableEq, Repr

/-- Result of a PublishDdmData call. -/
inductive PublishResult where
  | dropped
  | sent (pkt : List Nat)
deriving DecidableEq, Repr

/-- The state of the broker at entry to RunPollLoop: no control socket yet,
no connection, no agent, counter at 1. -/
def initState : BrokerState :=
  { running := true
    controlSock := false
    conn := none
    agentLoaded := false
    agentListening := false
    agentHasSocket := false
    sentAgentFds := false
    nextDdmIdCtr := 1 }

/-- Modelled from the spec: the agent control token kListenStartMessage.
The literal byte strings live in fd_transport.h of dt_fd_forward, which is
outside the sources at hand; the spec names the token ds-listen-start.
The trailing 0 is the NUL terminator that the memcmp in the source over
sizeof(kListenStartMessage) includes in the comparison. -/
def listenStartMsg : List Nat :=
  [100, 115, 45, 108, 105, 115, 116, 101, 110, 45, 115, 116, 97, 114, 116, 0]

/-- Modelled from the spec: the agent control token kListenEndMessage
(ds-listen-end), NUL included. -/
def listenEndMsg : List Nat :=
  [100, 115, 45, 108, 105, 115, 116, 101, 110, 45, 101, 110, 100, 0]

/-- Modelled from the spec: the agent control token kAcceptMessage
(ds-accept), NUL included. -/
def acceptMsg : List Nat :=
  [100, 115, 45, 97, 99, 99, 101, 112, 116, 0]

/-- Modelled from the spec: the agent control token kCloseMessage
(ds-close), NUL included. -/
def closeMsg : List Nat :=
  [100, 115, 45, 99, 108, 111, 115, 101, 0]

/-- Which of the four control messages a received datagram is.  There is
one case per memcmp in RunPollLoop, tested in the order of the source. -/
inductive MsgKind where
  | listenStart
  | listenEnd
  | close
  | accept
  | unknown
deriving DecidableEq, Repr

/-- The prefix dispatch of RunPollLoop on a datagram from the agent
control socket: memcmp(token, buf, sizeof(token)) == 0 is a prefix match
of the NUL-terminated token against the buffer, tested in the order of
the source: listen-start, listen-end, close, accept. -/
def msgKind (buf : List Nat) : MsgKind :=
  if listenStartMsg.isPrefixOf buf then MsgKind.listenStart
  else if listenEndMsg.isPrefixOf buf then MsgKind.listenEnd
  else if closeMsg.isPrefixOf buf then MsgKind.close
  else if acceptMsg.isPrefixOf buf then MsgKind.accept
  else MsgKind.unknown

/-- AdbConnectionState::SendAgentFds: dups the connection fd twice and the
write-lock eventfd once and sends them over the agent socketpair; on
sendmsg success it sets sent_agent_fds_, on failure it only logs.  The ok
argument is the outcome of sendmsg. -/
def sendAgentFds (s : BrokerState) (ok : Bool) : BrokerState × List BrokerAction :=
  if ok then ({ s with sentAgentFds := true }, [BrokerAction.sentFds])
  else (s, [BrokerAction.sendFdsFailed])

/-- The agent-control-socket POLLIN branch of RunPollLoop after a
successful recv: dispatch the datagram by prefix match.
listen-start sets agent_listening_ and, when a connection is in hand,
calls SendAgentFds; listen-end clears agent_listening_; close calls
CloseFds (which resets adb_connection_socket_ under the write-interlock
eventfd) and clears agent_has_socket_; accept sets agent_has_socket_ and
clears sent_agent_fds_; anything else is only logged. -/
def agentMsgStep (s : BrokerState) (buf : List Nat) (ok : Bool) :
    BrokerState × List BrokerAction :=
  match msgKind buf with
  | MsgKind.listenStart =>
    let s₁ := { s with agentListening := true }
    if s₁.conn.isSome then sendAgentFds s₁ ok else (s₁, [])
  | MsgKind.listenEnd => ({ s with agentListening := false }, [])
  | MsgKind.close =>
    ({ s with conn := none, agentHasSocket := false }, [BrokerAction.closedConnUnderLock])
  | MsgKind.accept =>
    ({ s with agentHasSocket := true, sentAgentFds := false }, [])
  | MsgKind.unknown => (s, [])

/-- The control-socket POLLIN branch of RunPollLoop, run under the write
interlock: ReadFdFromAdb failed (newFd = none) resets control_sock_ and
breaks the inner loop; a received fd while a connection is already held is
closed immediately and nothing else changes; otherwise the fd is adopted
as adb_connection_socket_ and, outside the interlock, SendAgentFds runs
when the agent is loaded and listening. -/
def controlFdStep (s : BrokerState) (newFd : Option Nat) (ok : Bool) :
    BrokerState × List BrokerAction :=
  match newFd with
  | none => ({ s with controlSock := false }, [BrokerAction.resetControl])
  | some fd =>
    match s.conn with
    | some _ => (s, [BrokerAction.closedNewFd fd])
    | none =>
      let s₁ := { s with conn := some fd }
      if s₁.agentLoaded && s₁.agentListening then
        let r := sendAgentFds s₁ ok
        (r.1, BrokerAction.adoptedFd fd :: r.2)
      else (s₁, [BrokerAction.adoptedFd fd])

/-- The adb-connection-socket POLLIN branch of RunPollLoop: if the agent
is not yet loaded, attach it (on failure the worker returns); if it is
loaded, listening and fds are not outstanding, resend them. -/
def connDataStep (s : BrokerState) (loadOk ok : Bool) :
    BrokerState × List BrokerAction :=
  if !s.agentLoaded then
    if loadOk then ({ s with agentLoaded := true }, [BrokerAction.loadedAgent])
    else ({ s with running := false }, [BrokerAction.loadFailed])
  else if s.agentListening && !s.sentAgentFds then sendAgentFds s ok
  else (s, [])

/-- One iteration of RunPollLoop, as a labelled transition relation.  The
hypotheses of each constructor are the conditions under which the poll
slot is armed (a slot set to -1 is excluded from the wait) and the branch
is taken: the agent slot is armed only when agent_loaded_, the control
slot only while adb_connection_socket_ is absent, and the connection slot
only while neither agent_has_socket_ nor sent_agent_fds_.  reconnect and
setupFail are SetupAdbConnection in the outer loop succeeding or failing;
wake is the sleep-eventfd/spurious case, which does nothing. -/
inductive Step : BrokerState → BrokerState → Prop where
  | reconnect (s : BrokerState) :
      s.running = true → s.controlSock = false →
      Step s { s with controlSock := true }
  | setupFail (s : BrokerState) :
      s.running = true → s.controlSock = false →
      Step s { s with running := false }
  | agentMsg (s : BrokerState) (buf : List Nat) (ok : Bool) :
      s.running = true → s.controlSock = true → s.agentLoaded = true →
      Step s (agentMsgStep s buf ok).1
  | recvFd (s : BrokerState) (newFd : Option Nat) (ok : Bool) :
      s.running = true → s.controlSock = true → s.conn = none →
      Step s (controlFdStep s newFd ok).1
  | rdhup (s : BrokerState) :
      s.running = true → s.controlSock = true → s.conn = none →
      Step s { s with controlSock := false }
  | connData (s : BrokerState) (loadOk ok : Bool) :
      s.running = true → s.controlSock = true → s.conn.isSome = true →
      s.agentHasSocket = false → s.sentAgentFds = false →
      Step s (connDataStep s loadOk ok).1
  | wake (s : BrokerState) :
      Step s s

/-- States of the poll loop reachable from its entry state. -/
inductive Reachable : BrokerState → Prop where
  | init : Reachable initState
  | step {s s' : BrokerState} : Reachable s → Step s s' → Reachable s'

/-- The same transition relation restricted to a protocol-conforming
agent: a ds-accept datagram is only delivered while the debugger
connection is in hand.  This is the assumption under which the
POLLRDHUP-branch assertion is proved. -/
inductive RStep : BrokerState → BrokerState → Prop where
  | reconnect (s : BrokerState) :
      s.running = true → s.controlSock = false →
      RStep s { s with controlSock := true }
  | setupFail (s : BrokerState) :
      s.running = true → s.controlSock = false →
      RStep s { s with running := false }
  | agentMsg (s : BrokerState) (buf : List Nat) (ok : Bool) :
      s.running = true → s.controlSock = true → s.agentLoaded = true →
      (msgKind buf = MsgKind.accept → s.conn.isSome = true) →
      RStep s (agentMsgStep s buf ok).1
  | recvFd (s : BrokerState) (newFd : Option Nat) (ok : Bool) :
      s.running = true → s.controlSock = true → s.conn = none →
      RStep s (controlFdStep s newFd ok).1
  | rdhup (s : BrokerState) :
      s.running = true → s.controlSock = true → s.conn = none →
      RStep s { s with controlSock := false }
  | connData (s : BrokerState) (loadOk ok : Bool) :
      s.running = true → s.controlSock = true → s.conn.isSome = true →
      s.agentHasSocket = false → s.sentAgentFds = false →
      RStep s (connDataStep s loadOk ok).1
  | wake (s : BrokerState) :
      RStep s s

/-- States reachable under the conforming-agent restriction. -/
inductive RReachable : BrokerState → Prop where
  | init : RReachable initState
  | step {s s' : BrokerState} : RReachable s → RStep s s' → RReachable s'

/-- Modelled from the spec: kJDWPHeaderLen, the length of a JDWP command
packet header, is defined in jdwp/jdwp_priv.h which is outside the
sources at hand.  The packet-layout table of the spec places flags at 8,
command set at 9, command at 10 and the chunk header right after, which
pins the JDWP header at 4 + 4 + 1 + 1 + 1 = 11 bytes, exactly the bytes
PublishDdmData writes before the chunk type. -/
def kJDWPHeaderLen : Nat := 11

/-- Modelled from the spec: the DDM chunk command set, 0xC7
(kJDWPDdmCmdSet in jdwp/jdwp_priv.h, outside the sources at hand). -/
def kJDWPDdmCmdSet : Nat := 0xC7

/-- Modelled from the spec: the DDM chunk command, 1 (kJDWPDdmCmd in
jdwp/jdwp_priv.h, outside the sources at hand). -/
def kJDWPDdmCmd : Nat := 1

/-- kDdmPacketHeaderSize from PublishDdmData: JDWP header plus the
4-byte chunk type and the 4-byte chunk length. -/
def kDdmPacketHeaderSize : Nat := kJDWPHeaderLen + 4 + 4

/-- htonl of a uint32 value: the four bytes of v mod 2^32, most
significant first. -/
def u32be (v : Nat) : List Nat :=
  [v % 2 ^ 32 / 2 ^ 24,
   v % 2 ^ 32 / 2 ^ 16 % 2 ^ 8,
   v % 2 ^ 32 / 2 ^ 8 % 2 ^ 8,
   v % 2 ^ 32 % 2 ^ 8]

/-- Read the big-endian 32-bit integer stored at byte offset off of a
packet (out-of-range bytes read as 0). -/
def readU32 (l : List Nat) (off : Nat) : Nat :=
  l.getD off 0 * 2 ^ 24 + l.getD (off + 1) 0 * 2 ^ 16 +
    l.getD (off + 2) 0 * 2 ^ 8 + l.getD (off + 3) 0

/-- NextDdmId: return the current counter with the sign bit forced, and
post-increment the uint32 counter. -/
def nextDdmId (c : Nat) : Nat × Nat :=
  (c % 2 ^ 32 ||| 0x80000000, (c + 1) % 2 ^ 32)

/-- The uint32 counter next_ddm_id_ after j emissions; the constructor
initialises it to 1. -/
def counterAfter : Nat → Nat
  | 0 => 1
  | j + 1 => (nextDdmId (counterAfter j)).2

/-- The packet id carried by the k-th DDM emission (k = 1, 2, ...). -/
def idOfEmission (k : Nat) : Nat := (nextDdmId (counterAfter (k - 1))).1

/-- The bytes PublishDdmData hands to writev, header segment followed by
payload segment: total length, packet id, flags 0, command set, command,
chunk type, chunk length, then the payload. -/
def ddmPacket (ty id : Nat) (data : List Nat) : List Nat :=
  u32be (kDdmPacketHeaderSize + data.length) ++ u32be id ++
    [0, kJDWPDdmCmdSet, kJDWPDdmCmd] ++ u32be ty ++ u32be data.length ++ data

/-- AdbConnectionState::PublishDdmData: under the write interlock, if the
connection socket is absent the packet is dropped with a warning and
nothing changes; otherwise the id counter advances and the packet is
written. -/
def publishDdm (s : BrokerState) (ty : Nat) (data : List Nat) :
    BrokerState × PublishResult :=
  match s.conn with
  | none => (s, PublishResult.dropped)
  | some _ =>
    let r := nextDdmId s.nextDdmIdCtr
    ({ s with nextDdmIdCtr := r.2 }, PublishResult.sent (ddmPacket ty r.1 data))

/-- The back-off update in SetupAdbConnection: sleep_ms += sleep_ms >> 1,
then clamp to sleep_max_ms = 2000. -/
def backoffNext (s : Nat) : Nat :=
  if 2000 < s + s / 2 then 2000 else s + s / 2

/-- The duration of the n-th sleep (0-based) performed by
the retry loop of SetupAdbConnection; the first sleep is 500 ms. -/
def sleepSeq : Nat → Nat
  | 0 => 500
  | n + 1 => backoffNext (sleepSeq n)

/-- The retry loop of SetupAdbConnection over an oracle of per-iteration
shutting_down readings sd and connect outcomes co, with fuel bounding the
number of iterations observed.  Returns whether the control socket was
installed and the list of sleeps performed. -/
def setupGo (sd co : Nat → Bool) : Nat → Nat → Nat → Bool × List Nat
  | 0, _, _ => (false, [])
  | fuel + 1, i, s =>
    if sd i then (false, [])
    else if co i then (true, [])
    else
      ((setupGo sd co fuel (i + 1) (backoffNext s)).1,
        s :: (setupGo sd co fuel (i + 1) (backoffNext s)).2)

/-- SetupAdbConnection: the loop starts with sleep_ms = 500. -/
def setupAdbConnection (sd co : Nat → Bool) (fuel : Nat) : Bool × List Nat :=
  setupGo sd co fuel 0 500

/-- MakeAgentArg, from the source: agent name, an equals sign, the JDWP options, a
comma only when the options are non-empty, then the dt_fd_forward
transport clause and the numeric remote agent control socket. -/
def makeAgentArg (agentName opts : String) (fd : Nat) : String :=
  agentName ++ "=" ++ opts ++ (if opts.isEmpty then "" else ",") ++
    "transport=dt_fd_forward,address=" ++ toString fd

/-- The agent load argument exactly as the grammar in the spec writes it, with
transport value fd_forward; kept separate so it can be compared with the
makeAgentArg of the source. -/
def specAgentArg (agentName opts : String) (fd : Nat) : String :=
  agentName ++ "=" ++ opts ++ (if opts.isEmpty then "" else ",") ++
    "transport=fd_forward,address=" ++ toString fd

/-- The size of the stack buffer for agent control datagrams in
RunPollLoop: char buf[257]. -/
def kAgentMsgBufSize : Nat := 257

/-- The bound passed to recv for that buffer: sizeof(buf) - 1 = 256, so a
successful recv returns res with 0 <= res <= 256. -/
def agentRecvMax : Nat := kAgentMsgBufSize - 1

/-- The index at which RunPollLoop writes the terminating NUL after a
successful recv of res bytes: buf[res + 1] = 0. -/
def nulTerminatorIndex (res : Nat) : Nat := res + 1

/-- The state reached after: connect to the daemon, adopt debugger fd 7,
load the agent on connection data, ds-listen-start with a successful fd
handoff, then ds-close.  sent_agent_fds_ is still set although the
connection is gone. -/
def badC2State : BrokerState :=
  { running := true
    controlSock := true
    conn := none
    agentLoaded := true
    agentListening := true
    agentHasSocket := false
    sentAgentFds := true
    nextDdmIdCtr := 1 }

/-- The state reached from badC2State by a further ds-accept datagram:
agent_has_socket_ is set while no connection is held and the control
socket is armed for POLLRDHUP. -/
def badC9State : BrokerState :=
  { running := true
    controlSock := true
    conn := none
    agentLoaded := true
    agentListening := true
    agentHasSocket := true
    sentAgentFds := false
    nextDdmIdCtr := 1 }

/-- Helper: transfer a step to a syntactically given target state. -/
theorem reachable_to {s s' t : BrokerState} (h : Reachable s) (hs : Step s s')
    (he : s' = t) : Reachable t :=
  he ▸ Reachable.step h hs

/-- Helper: reading an element past an appended list skips it. -/
theorem getD_append_skip (l rest : List Nat) (i : Nat) :
    (l ++ rest).getD (l.length + i) 0 = rest.getD i 0 := by
  induction l with
  | nil => simp
  | cons a t ih =>
    have h : (a :: t).length + i = (t.length + i) + 1 := by
      simp only [List.length_cons]
      omega
    rw [h]
    simp only [List.cons_append, List.getD_cons_succ, List.drop_succ_cons]
    exact ih

/-- Helper: dropping past an appended list skips it. -/
theorem drop_append_skip (l rest : List Nat) (i : Nat) :
    (l ++ rest).drop (l.length + i) = rest.drop i := by
  induction l with
  | nil => simp
  | cons a t ih =>
    have h : (a :: t).length + i = (t.length + i) + 1 := by
      simp only [List.length_cons]
      omega
    rw [h]
    simp only [List.cons_append, List.getD_cons_succ, List.drop_succ_cons]
    exact ih

/-- Helper: decoding the leading big-endian 32-bit field recovers the
encoded value modulo 2^32. -/
theorem readU32_u32be (v : Nat) (rest : List Nat) :
    readU32 (u32be v ++ rest) 0 = v % 2 ^ 32 := by
  simp [readU32, u32be, List.getD]
  omega

/-- Helper: a 32-bit big-endian field occupies four bytes. -/
theorem u32be_length (v : Nat) : (u32be v).length = 4 := rfl

/-- Helper: reading a 32-bit field beyond an appended prefix. -/
theorem readU32_append_skip (l rest : List Nat) (i : Nat) :
    readU32 (l ++ rest) (l.length + i) = readU32 rest i := by
  unfold readU32
  have h1 : l.length + i + 1 = l.length + (i + 1) := by omega
  have h2 : l.length + i + 2 = l.length + (i + 2) := by omega
  have h3 : l.length + i + 3 = l.length + (i + 3) := by omega
  rw [h1, h2, h3, getD_append_skip, getD_append_skip, getD_append_skip, getD_append_skip]

/-- C10: after recv returns res bytes into the 257-byte buffer, RunPollLoop
writes the terminating NUL at index res + 1.  The bound given to recv is
sizeof(buf) - 1 = 256, and at the maximal result res = 256 the NUL lands
at index 257, one past the end of the buffer; only res up to 255 stays in
bounds. -/
theorem c10_nul_write_out_of_bounds :
    agentRecvMax = 256 ∧
    nulTerminatorIndex agentRecvMax = kAgentMsgBufSize ∧
    ¬ nulTerminatorIndex agentRecvMax < kAgentMsgBufSize ∧
    nulTerminatorIndex 255 < kAgentMsgBufSize := by
  decide

/-- C7: a DDM publish while the connection socket is absent is dropped
and returns with the broker state unchanged; in particular the id counter
is not advanced. -/
theorem c7_publish_disconnected (s : BrokerState) (ty : Nat) (data : List Nat)
    (h : s.conn = none) :
    publishDdm s ty data = (s, PublishResult.dropped) := by
  unfold publishDdm
  rw [h]

/-- C7 witness: publishing in the initial, disconnected state is dropped
without any state change. -/
theorem c7_witness :
    initState.conn = none ∧ publishDdm initState 0 [] = (initState, PublishResult.dropped) :=
  ⟨rfl, c7_publish_disconnected initState 0 [] rfl⟩

/-- C6: when an fd is received from the daemon while a connection is
already held, the new fd is closed immediately and the broker state,
including the held connection and all flags, is returned unchanged. -/
theorem c6_second_debugger_dropped (s : BrokerState) (c fd : Nat) (ok : Bool)
    (h : s.conn = some c) :
    controlFdStep s (some fd) ok = (s, [BrokerAction.closedNewFd fd]) := by
  unfold controlFdStep
  rw [h]

/-- C6 witness: a concrete state holding connection fd 3 drops a newly
received fd 9 and stays unchanged. -/
theorem c6_witness :
    (⟨true, true, some 3, true, true, false, false, 1⟩ : BrokerState).conn = some 3 ∧
    controlFdStep ⟨true, true, some 3, true, true, false, false, 1⟩ (some 9) true =
      (⟨true, true, some 3, true, true, false, false, 1⟩, [BrokerAction.closedNewFd 9]) :=
  ⟨rfl, c6_second_debugger_dropped _ 3 9 true rfl⟩

/-- Helper: the uint32 counter after j emissions is (1 + j) mod 2^32. -/
theorem counterAfter_eq (j : Nat) : counterAfter j = (1 + j) % 2 ^ 32 := by
  induction j with
  | zero => norm_num [counterAfter]
  | succ j ih =>
    simp only [counterAfter, nextDdmId, ih]
    omega

/-- C4: NextDdmId returns the post-incremented counter with bit 31 forced
by the OR with 0x80000000; every emitted id has bit 31 set, and since the
counter starts at 1 the k-th emission carries id 0x80000000 OR k, the
counter overflowing modulo 2^32 under the mask. -/
theorem c4_next_ddm_id :
    (∀ c : Nat, Nat.testBit (nextDdmId c).1 31 = true) ∧
    (∀ k : Nat, Nat.testBit (idOfEmission k) 31 = true) ∧
    (∀ k : Nat, 1 ≤ k → idOfEmission k = 0x80000000 ||| k % 2 ^ 32) ∧
    (∀ k : Nat, 1 ≤ k → k < 2 ^ 32 → idOfEmission k = 0x80000000 ||| k) := by
  have hb : Nat.testBit 0x80000000 31 = true := by decide
  have hbit : ∀ c : Nat, Nat.testBit (nextDdmId c).1 31 = true := by
    intro c
    simp only [nextDdmId]
    rw [Nat.testBit_or, hb, Bool.or_true]
  have hmain : ∀ k : Nat, 1 ≤ k → idOfEmission k = 0x80000000 ||| k % 2 ^ 32 := by
    intro k hk
    unfold idOfEmission nextDdmId
    rw [counterAfter_eq]
    have h1 : 1 + (k - 1) = k := by omega
    have h2 : k % 2 ^ 32 % 2 ^ 32 = k % 2 ^ 32 :=
      Nat.mod_eq_of_lt (Nat.mod_lt _ (by norm_num))
    rw [h1, h2, Nat.lor_comm]
  refine ⟨hbit, fun k => hbit _, hmain, fun k hk hlt => ?_⟩
  rw [hmain k hk, Nat.mod_eq_of_lt hlt]

/-- C4 witness: the first emission carries id 0x80000001. -/
theorem c4_witness : 1 ≤ 1 ∧ idOfEmission 1 = 0x80000000 ||| 1 % 2 ^ 32 :=
  ⟨le_refl 1, c4_next_ddm_id.2.2.1 1 (le_refl 1)⟩

/-- C3 counterexample: with empty options the source builds
a=transport=dt_fd_forward,address=3, not the claimed
a=transport=fd_forward,address=3: the transport token is dt_fd_forward. -/
theorem c3_counterexample : makeAgentArg "a" "" 3 ≠ specAgentArg "a" "" 3 := by
  decide

/-- C3 amended: the agent load argument is
agentName=opts[,]transport=dt_fd_forward,address=fd with the comma
present exactly when the options string is non-empty. -/
theorem c3_agent_arg (agentName opts : String) (fd : Nat) :
    (opts.isEmpty = true →
      makeAgentArg agentName opts fd =
        agentName ++ "=" ++ opts ++ "transport=dt_fd_forward,address=" ++ toString fd) ∧
    (opts.isEmpty = false →
      makeAgentArg agentName opts fd =
        agentName ++ "=" ++ opts ++ "," ++ "transport=dt_fd_forward,address=" ++ toString fd) := by
  constructor
  · intro h
    simp [makeAgentArg, h, String.append_empty]
  · intro h
    simp [makeAgentArg, h]

/-- C3 witness: both comma cases evaluated at concrete arguments. -/
theorem c3_witness :
    (("" : String).isEmpty = true ∧
      makeAgentArg "a" "" 7 = "a" ++ "=" ++ "" ++ "transport=dt_fd_forward,address=" ++ toString 7) ∧
    (("x" : String).isEmpty = false ∧
      makeAgentArg "a" "x" 7 =
        "a" ++ "=" ++ "x" ++ "," ++ "transport=dt_fd_forward,address=" ++ toString 7) :=
  ⟨⟨by decide, (c3_agent_arg "a" "" 7).1 (by decide)⟩,
   ⟨by decide, (c3_agent_arg "a" "x" 7).2 (by decide)⟩⟩

/-- Helper: the back-off update never exceeds the 2000 ms cap. -/
theorem backoffNext_le (s : Nat) : backoffNext s ≤ 2000 := by
  unfold backoffNext
  split <;> omega

/-- Helper: every sleep duration respects the 2000 ms cap. -/
theorem sleepSeq_le (n : Nat) : sleepSeq n ≤ 2000 := by
  cases n with
  | zero => decide
  | succ n => exact backoffNext_le _

/-- Helper: starting the retry loop at the k-th sleep value, the sleeps
it performs are consecutive elements of the back-off sequence. -/
theorem setupGo_sleeps (sd co : Nat → Bool) (fuel : Nat) :
    ∀ i k, (setupGo sd co fuel i (sleepSeq k)).2 =
      List.map sleepSeq (List.range' k (setupGo sd co fuel i (sleepSeq k)).2.length) := by
  induction fuel with
  | zero => intro i k; simp [setupGo]
  | succ fuel ih =>
    intro i k
    unfold setupGo
    split
    · simp
    · split
      · simp
      · have hb : backoffNext (sleepSeq k) = sleepSeq (k + 1) := rfl
        rw [hb]
        simp only [List.length_cons, List.range'_succ, List.map_cons, List.cons.injEq]
        exact ⟨trivial, ih (i + 1) (k + 1)⟩

/-- C8: in SetupAdbConnection a failed connect is retried unless
shutting_down; the sleeps start at 500 ms, go 500, 750, 1125, ...,
each next value is the previous plus its integer half clamped to 2000,
and no sleep ever exceeds 2000 ms.  The list of sleeps any run performs
is an initial segment of that sequence, and a run that observes
shutting_down stops without connecting or sleeping. -/
theorem c8_backoff (sd co : Nat → Bool) (fuel : Nat) :
    sleepSeq 0 = 500 ∧ sleepSeq 1 = 750 ∧ sleepSeq 2 = 1125 ∧
    (∀ n, sleepSeq (n + 1) = backoffNext (sleepSeq n)) ∧
    (∀ n, sleepSeq n ≤ 2000) ∧
    (setupAdbConnection sd co fuel).2 =
      List.map sleepSeq (List.range (setupAdbConnection sd co fuel).2.length) ∧
    (∀ x ∈ (setupAdbConnection sd co fuel).2, x ≤ 2000) ∧
    (0 < fuel → sd 0 = true → setupAdbConnection sd co fuel = (false, [])) := by
  have hseg : (setupAdbConnection sd co fuel).2 =
      List.map sleepSeq (List.range (setupAdbConnection sd co fuel).2.length) := by
    have h0 : (500 : Nat) = sleepSeq 0 := rfl
    unfold setupAdbConnection
    rw [h0, List.range_eq_range']
    exact setupGo_sleeps sd co fuel 0 0
  refine ⟨rfl, by decide, by decide, fun n => rfl, sleepSeq_le, hseg, ?_, ?_⟩
  · intro x hx
    rw [hseg] at hx
    obtain ⟨n, _, rfl⟩ := List.mem_map.mp hx
    exact sleepSeq_le n
  · intro hf hsd
    cases fuel with
    | zero => omega
    | succ fuel =>
      unfold setupAdbConnection setupGo
      rw [hsd]
      simp

/-- C8 witness: with shutting_down already set, one iteration of the loop
exits without connecting and without sleeping. -/
theorem c8_witness :
    0 < 1 ∧ setupAdbConnection (fun _ => true) (fun _ => false) 1 = (false, []) :=
  ⟨by decide,
    (c8_backoff (fun _ => true) (fun _ => false) 1).2.2.2.2.2.2.2 (by decide) rfl⟩

/-- Helper: skipping a 4-byte field when reading a 32-bit value. -/
theorem readU32_skip4 (v : Nat) (rest : List Nat) (i : Nat) :
    readU32 (u32be v ++ rest) (4 + i) = readU32 rest i := by
  have h := readU32_append_skip (u32be v) rest i
  rw [u32be_length] at h
  exact h

/-- Helper: skipping a 4-byte field when reading a byte. -/
theorem getD_skip4 (v : Nat) (rest : List Nat) (i : Nat) :
    (u32be v ++ rest).getD (4 + i) 0 = rest.getD i 0 := by
  have h := getD_append_skip (u32be v) rest i
  rw [u32be_length] at h
  exact h

/-- Helper: skipping a 4-byte field when dropping a prefix. -/
theorem drop_skip4 (v : Nat) (rest : List Nat) (i : Nat) :
    (u32be v ++ rest).drop (4 + i) = rest.drop i := by
  have h := drop_append_skip (u32be v) rest i
  rw [u32be_length] at h
  exact h

/-- Helper: skipping the three single-byte header fields when reading a
32-bit value. -/
theorem readU32_skip3 (a b c : Nat) (rest : List Nat) (i : Nat) :
    readU32 ([a, b, c] ++ rest) (3 + i) = readU32 rest i := by
  simpa using readU32_append_skip [a, b, c] rest i

/-- Helper: skipping the three single-byte header fields when dropping a
prefix. -/
theorem drop_skip3 (a b c : Nat) (rest : List Nat) (i : Nat) :
    ([a, b, c] ++ rest).drop (3 + i) = rest.drop i := by
  simpa using drop_append_skip [a, b, c] rest i

/-- C1 counterexample: the packet PublishDdmData emits for an empty
payload is 19 bytes long with total-length field 19, not 23 as the claim
states: the JDWP command header is 11 bytes, and 11 + 4 + 4 = 19. -/
theorem c1_counterexample :
    (ddmPacket 0x41414141 0x80000001 []).length = 19 ∧
    readU32 (ddmPacket 0x41414141 0x80000001 []) 0 = 19 ∧
    (ddmPacket 0x41414141 0x80000001 []).length ≠ 23 := by
  decide

/-- C1 amended: every DDM packet built by PublishDdmData has the 4-byte
big-endian total-length field at offset 0 equal to 19 + len(data), the id
at offset 4, flags 0 at offset 8, command set 0xC7 at offset 9, command 1
at offset 10, the chunk type at offset 11, the chunk length len(data) at
offset 15, and the payload from offset 19; an empty payload hence yields
a 19-byte packet whose length field is 19. -/
theorem c1_ddm_packet (ty id : Nat) (data : List Nat)
    (hlen : kDdmPacketHeaderSize + data.length < 2 ^ 32) :
    (ddmPacket ty id data).length = 19 + data.length ∧
    readU32 (ddmPacket ty id data) 0 = 19 + data.length ∧
    readU32 (ddmPacket ty id data) 4 = id % 2 ^ 32 ∧
    (ddmPacket ty id data).getD 8 0 = 0 ∧
    (ddmPacket ty id data).getD 9 0 = kJDWPDdmCmdSet ∧
    (ddmPacket ty id data).getD 10 0 = kJDWPDdmCmd ∧
    readU32 (ddmPacket ty id data) 11 = ty % 2 ^ 32 ∧
    readU32 (ddmPacket ty id data) 15 = data.length ∧
    (ddmPacket ty id data).drop 19 = data := by
  have hsize : kDdmPacketHeaderSize = 19 := rfl
  rw [hsize] at hlen
  have hdl : data.length < 2 ^ 32 := by omega
  have hpkt : ddmPacket ty id data =
      u32be (19 + data.length) ++ (u32be id ++ ([0, kJDWPDdmCmdSet, kJDWPDdmCmd] ++
        (u32be ty ++ (u32be data.length ++ data)))) := by
    simp [ddmPacket, kDdmPacketHeaderSize, kJDWPHeaderLen, List.append_assoc]
  refine ⟨?_, ?_, ?_, ?_, ?_, ?_, ?_, ?_, ?_⟩
  · rw [hpkt]
    simp [u32be]
    omega
  · rw [hpkt, readU32_u32be]
    exact Nat.mod_eq_of_lt hlen
  · rw [hpkt]
    exact (readU32_skip4 _ _ 0).trans (readU32_u32be _ _)
  · rw [hpkt]
    exact (getD_skip4 _ _ 4).trans (getD_skip4 _ _ 0)
  · rw [hpkt]
    exact (getD_skip4 _ _ 5).trans (getD_skip4 _ _ 1)
  · rw [hpkt]
    exact (getD_skip4 _ _ 6).trans (getD_skip4 _ _ 2)
  · rw [hpkt]
    exact (readU32_skip4 _ _ 7).trans ((readU32_skip4 _ _ 3).trans
      ((readU32_skip3 _ _ _ _ 0).trans (readU32_u32be _ _)))
  · rw [hpkt]
    exact ((readU32_skip4 _ _ 11).trans ((readU32_skip4 _ _ 7).trans
      ((readU32_skip3 _ _ _ _ 4).trans ((readU32_skip4 _ _ 0).trans
        (readU32_u32be _ _))))).trans (Nat.mod_eq_of_lt hdl)
  · rw [hpkt]
    exact (drop_skip4 _ _ 15).trans ((drop_skip4 _ _ 11).trans
      ((drop_skip3 _ _ _ _ 8).trans ((drop_skip4 _ _ 4).trans
        (drop_skip4 _ _ 0))))

/-- C1 witness: the amended layout evaluated on a 4-byte payload. -/
theorem c1_witness :
    kDdmPacketHeaderSize + ([0, 0, 0, 0] : List Nat).length < 2 ^ 32 ∧
    (ddmPacket 0x41414141 0x80000001 [0, 0, 0, 0]).length =
      19 + ([0, 0, 0, 0] : List Nat).length :=
  ⟨by decide, (c1_ddm_packet 0x41414141 0x80000001 [0, 0, 0, 0] (by decide)).1⟩

/-- C5: a datagram from the agent control socket is dispatched by prefix
match of the NUL-terminated tokens and has exactly the four specified
effects: listen-start sets agent_listening and hands off fds exactly when
a connection is in hand; listen-end clears agent_listening; close tears
down the connection under the write interlock and clears
agent_has_socket; accept sets agent_has_socket and clears sent_agent_fds;
any other datagram leaves the broker state unchanged. -/
theorem c5_dispatch (s : BrokerState) (buf : List Nat) (ok : Bool) :
    (∀ rest : List Nat,
      msgKind (listenStartMsg ++ rest) = MsgKind.listenStart ∧
      msgKind (listenEndMsg ++ rest) = MsgKind.listenEnd ∧
      msgKind (closeMsg ++ rest) = MsgKind.close ∧
      msgKind (acceptMsg ++ rest) = MsgKind.accept) ∧
    (msgKind buf = MsgKind.listenStart →
      (agentMsgStep s buf ok).1 =
        { s with agentListening := true,
                 sentAgentFds := if s.conn.isSome && ok then true else s.sentAgentFds } ∧
      ((agentMsgStep s buf ok).2 ≠ [] ↔ s.conn.isSome = true)) ∧
    (msgKind buf = MsgKind.listenEnd →
      agentMsgStep s buf ok = ({ s with agentListening := false }, [])) ∧
    (msgKind buf = MsgKind.close →
      agentMsgStep s buf ok =
        ({ s with conn := none, agentHasSocket := false },
          [BrokerAction.closedConnUnderLock])) ∧
    (msgKind buf = MsgKind.accept →
      agentMsgStep s buf ok =
        ({ s with agentHasSocket := true, sentAgentFds := false }, [])) ∧
    (msgKind buf = MsgKind.unknown → agentMsgStep s buf ok = (s, [])) := by
  refine ⟨?_, ?_, ?_, ?_, ?_, ?_⟩
  · intro rest
    refine ⟨?_, ?_, ?_, ?_⟩ <;>
      simp [msgKind, listenStartMsg, listenEndMsg, closeMsg, acceptMsg, List.isPrefixOf]
  · intro h
    obtain ⟨ru, cs, cn, al, ali, ahs, saf, ctr⟩ := s
    simp only [agentMsgStep, h]
    cases cn <;> cases ok <;> simp [sendAgentFds]
  · intro h
    simp [agentMsgStep, h]
  · intro h
    simp [agentMsgStep, h]
  · intro h
    simp [agentMsgStep, h]
  · intro h
    simp [agentMsgStep, h]

/-- C5 witness: the dispatch evaluated at the concrete ds-accept
datagram in the fresh broker state. -/
theorem c5_witness :
    msgKind acceptMsg = MsgKind.accept ∧
    agentMsgStep initState acceptMsg true =
      ({ initState with agentHasSocket := true, sentAgentFds := false }, []) :=
  ⟨by decide, (c5_dispatch initState acceptMsg true).2.2.2.2.1 (by decide)⟩

/-- Helper: after connecting to the daemon, adopting debugger fd 7,
loading the agent on connection data and a ds-listen-start with a
successful handoff, a ds-close leaves the loop in badC2State: the
connection is gone but sent_agent_fds_ is still set. -/
theorem reachable_badC2 : Reachable badC2State := by
  have h1 : Reachable (⟨true, true, none, false, false, false, false, 1⟩ : BrokerState) :=
    reachable_to Reachable.init (Step.reconnect initState rfl rfl) (by decide)
  have h2 : Reachable (⟨true, true, some 7, false, false, false, false, 1⟩ : BrokerState) :=
    reachable_to h1
      (Step.recvFd ⟨true, true, none, false, false, false, false, 1⟩ (some 7) false rfl rfl rfl)
      (by decide)
  have h3 : Reachable (⟨true, true, some 7, true, false, false, false, 1⟩ : BrokerState) :=
    reachable_to h2
      (Step.connData ⟨true, true, some 7, false, false, false, false, 1⟩ true false
        rfl rfl rfl rfl rfl)
      (by decide)
  have h4 : Reachable (⟨true, true, some 7, true, true, false, true, 1⟩ : BrokerState) :=
    reachable_to h3
      (Step.agentMsg ⟨true, true, some 7, true, false, false, false, 1⟩ listenStartMsg true
        rfl rfl rfl)
      (by decide)
  exact reachable_to h4
    (Step.agentMsg ⟨true, true, some 7, true, true, false, true, 1⟩ closeMsg true rfl rfl rfl)
    (by decide)

/-- Helper: from badC2State a ds-accept datagram yields badC9State:
agent_has_socket_ set while no connection is held. -/
theorem reachable_badC9 : Reachable badC9State :=
  reachable_to reachable_badC2
    (Step.agentMsg badC2State acceptMsg true rfl rfl rfl) (by decide)

/-- C2: the ds-close handler does not clear sent_agent_fds_ (it only
resets the connection and agent_has_socket_), and consequently the poll
loop reaches a state with sent_agent_fds_ set while no connection is
held: handoff succeeded, then the agent sent ds-close before ds-accept. -/
theorem c2_close_keeps_sent_agent_fds :
    (agentMsgStep ⟨true, true, some 7, true, true, false, true, 1⟩ closeMsg true).1.sentAgentFds
      = true ∧
    (agentMsgStep ⟨true, true, some 7, true, true, false, true, 1⟩ closeMsg true).1.conn
      = none ∧
    Reachable badC2State ∧
    badC2State.sentAgentFds = true ∧ badC2State.conn = none :=
  ⟨by decide, by decide, reachable_badC2, rfl, rfl⟩

/-- C9 counterexample: a reachable state of the poll loop in which the
control socket is armed (connection absent) while agent_has_socket_ is
true, so the POLLRDHUP-branch DCHECK(!agent_has_socket_) is not valid for
unrestricted agent behaviour: a ds-accept delivered while no connection
is held sets agent_has_socket_ with connection_fd = None. -/
theorem c9_counterexample :
    Reachable badC9State ∧ badC9State.conn = none ∧
    badC9State.controlSock = true ∧ badC9State.agentHasSocket = true :=
  ⟨reachable_badC9, rfl, rfl, rfl⟩

/-- Helper: under the conforming-agent restriction, agent_has_socket_
implies a connection is held, in every reachable state. -/
theorem rreachable_hasSocket_conn : ∀ s : BrokerState, RReachable s →
    s.agentHasSocket = true → s.conn.isSome = true := by
  intro s h
  induction h with
  | init => decide
  | @step s s' hr hs ih =>
    cases hs with
    | reconnect h1 h2 => simpa using ih
    | setupFail h1 h2 => simpa using ih
    | agentMsg buf ok h1 h2 h3 h4 =>
      obtain ⟨ru, cs, cn, al, ali, ahs, saf, ctr⟩ := s
      cases hk : msgKind buf <;> cases cn <;> cases ok <;>
        simp_all [agentMsgStep, sendAgentFds]
    | recvFd newFd ok h1 h2 h3 =>
      obtain ⟨ru, cs, cn, al, ali, ahs, saf, ctr⟩ := s
      cases newFd <;> cases al <;> cases ali <;> cases ok <;>
        simp_all [controlFdStep, sendAgentFds]
    | rdhup h1 h2 h3 => simpa using ih
    | connData loadOk ok h1 h2 h3 h4 h5 =>
      obtain ⟨ru, cs, cn, al, ali, ahs, saf, ctr⟩ := s
      cases al <;> cases loadOk <;> cases ali <;> cases saf <;> cases ok <;>
        simp_all [connDataStep, sendAgentFds]
    | wake => exact ih

/-- C9 amended: provided ds-accept datagrams arrive only while a
connection is held, in every reachable state of the poll loop the control
socket is polled only while agent_has_socket_ is false, so the
POLLRDHUP-branch assertion holds. -/
theorem c9_rdhup_assertion (s : BrokerState) (h : RReachable s) (hc : s.conn = none) :
    s.agentHasSocket = false := by
  cases hh : s.agentHasSocket
  · rfl
  · have hsome := rreachable_hasSocket_conn s h hh
    rw [hc] at hsome
    exact absurd hsome (by decide)

/-- C9 witness: the assertion evaluated at the initial state. -/
theorem c9_witness :
    RReachable initState ∧ initState.conn = none ∧ initState.agentHasSocket = false :=
  ⟨RReachable.init, rfl, c9_rdhup_assertion initState RReachable.init rfl⟩
